import Mathlib

/-!
Shallow embedding of the HTTP/2 upstream bridge of shrpx
(`src/shrpx_http2_upstream.cc`), together with theorems checking the
natural-language specification against it.

External collaborators (the nghttp2 codec, libevent buffers, the
`Downstream`/`DownstreamConnection` objects, configuration) are modelled
as inputs: the success or failure of an external call is an oracle
boolean, the values of external lookups are `Option` inputs, and the
observable effects of a handler (RST_STREAM submissions, state changes,
removals, deletions, `send()` invocations) are recorded in an explicit
result structure.
-/

namespace Shrpx

/-- HTTP/2 error codes (`nghttp2_error_code`), as consumed by the bridge. -/
inductive ErrorCode where
  | NO_ERROR
  | PROTOCOL_ERROR
  | INTERNAL_ERROR
  | FLOW_CONTROL_ERROR
  | SETTINGS_TIMEOUT
  | STREAM_CLOSED
  | FRAME_SIZE_ERROR
  | REFUSED_STREAM
  | CANCEL
  | COMPRESSION_ERROR
  | CONNECT_ERROR
  | ENHANCE_YOUR_CALM
  | INADEQUATE_SECURITY
  deriving DecidableEq, Repr

/-- Per-stream request-side states (`Downstream` request state machine). -/
inductive RequestState where
  | INITIAL
  | HEADER_COMPLETE
  | MSG_COMPLETE
  | STREAM_CLOSED
  | CONNECT_FAIL
  deriving DecidableEq, Repr

/-- Per-stream response-side states (`Downstream` response state machine). -/
inductive ResponseState where
  | INITIAL
  | HEADER_COMPLETE
  | MSG_COMPLETE
  | MSG_RESET
  deriving DecidableEq, Repr

/-- `OUTBUF_MAX_THRES` backpressure threshold, 64*1024 bytes
(`shrpx_http2_upstream.cc` line 49). -/
def OUTBUF_MAX_THRES : Nat := 64 * 1024

/-- `infer_upstream_rst_stream_error_code` (lines 465-475): only
`REFUSED_STREAM` is propagated from the origin to the client; every other
origin error code is mapped to `INTERNAL_ERROR`. -/
def infer_upstream_rst_stream_error_code
    (downstream_error_code : ErrorCode) : ErrorCode :=
  if downstream_error_code ≠ ErrorCode.REFUSED_STREAM then
    ErrorCode.INTERNAL_ERROR
  else
    downstream_error_code

/-- Modelled from the spec: `http2::non_empty_value` (implemented in
`http2.cc`, outside this tree; its tests are declared in
`src/http2_test.h`): the header occurrence is present and its value is
non-empty. -/
def non_empty_value : Option String → Bool
  | none => false
  | some v => !v.isEmpty

/-- Modelled from the spec: `http2::value_lws` (implemented in `http2.cc`,
outside this tree): the value consists only of linear whitespace, i.e.
every character is a space or horizontal tab (an empty value is LWS-only). -/
def value_lws (v : String) : Bool :=
  v.all fun c => c == ' ' || c == '\t'

/-- Inputs to `on_request_headers` (lines 237-333). External lookups and
call results are inputs: `found` is whether `find_downstream` returned a
stream; `headers_ok` is the result of `http2::check_http2_headers`;
`host`, `authority`, `path`, `method`, `scheme` are the unique header
occurrences returned by `http2::get_unique_header`; `content_length` is
the occurrence returned by `http2::get_header`; `http2_proxy` is the
configuration flag; `end_stream` is `frame->hd.flags & END_STREAM`;
`attach_ok` and `push_ok` are whether `dconn->attach_downstream` and
`downstream->push_request_headers` returned 0. -/
structure ReqHeadersInput where
  found : Bool
  headers_ok : Bool
  host : Option String
  authority : Option String
  path : Option String
  method : Option String
  scheme : Option String
  content_length : Option String
  http2_proxy : Bool
  end_stream : Bool
  attach_ok : Bool
  push_ok : Bool
  deriving Repr

/-- Observable outcome of `on_request_headers` for a stream whose request
state was `st0` on entry: the RST_STREAM error code submitted, if any, and
the final request state. -/
structure ReqHeadersResult where
  rst : Option ErrorCode
  request_state : RequestState
  deriving DecidableEq, Repr

/-- The attach-and-push tail of `on_request_headers` (lines 314-331),
reached once validation has passed: attach the origin connection; on
failure RST_STREAM(INTERNAL_ERROR) and `request_state = CONNECT_FAIL`;
otherwise push the request headers, on failure RST_STREAM(INTERNAL_ERROR)
leaving the state unchanged; otherwise `HEADER_COMPLETE`, overwritten by
`MSG_COMPLETE` when the HEADERS frame carried END_STREAM. -/
def attach_and_push (attach_ok push_ok end_stream : Bool)
    (st0 : RequestState) : ReqHeadersResult :=
  if !attach_ok then
    ⟨some ErrorCode.INTERNAL_ERROR, RequestState.CONNECT_FAIL⟩
  else if !push_ok then
    ⟨some ErrorCode.INTERNAL_ERROR, st0⟩
  else if end_stream then
    ⟨none, RequestState.MSG_COMPLETE⟩
  else
    ⟨none, RequestState.HEADER_COMPLETE⟩

/-- `on_request_headers` (lines 237-333): the headers-complete handler for a
request-category HEADERS frame. Logging, header dumping and
`check_upgrade_request` (which only sets upgrade bookkeeping) are omitted;
`set_request_method` / `..._scheme` / `..._authority` / `..._path` caching
has no bearing on the observables recorded here. -/
def on_request_headers (i : ReqHeadersInput) (st0 : RequestState) :
    ReqHeadersResult :=
  if !i.found then
    ⟨none, st0⟩
  else if !i.headers_ok then
    ⟨some ErrorCode.PROTOCOL_ERROR, st0⟩
  else
    let is_connect := i.method == some "CONNECT"
    let having_host := non_empty_value i.host
    let having_authority := non_empty_value i.authority
    if is_connect &&
       (i.scheme.isSome || i.path.isSome || !having_authority) then
      ⟨some ErrorCode.PROTOCOL_ERROR, st0⟩
    else if !is_connect &&
       (!non_empty_value i.method ||
        !non_empty_value i.scheme ||
        (i.http2_proxy && !having_authority) ||
        (!i.http2_proxy && !having_authority && !having_host) ||
        !non_empty_value i.path) then
      ⟨some ErrorCode.PROTOCOL_ERROR, st0⟩
    else if !is_connect && !i.end_stream &&
       (match i.content_length with
        | none => true
        | some v => value_lws v) then
      ⟨some ErrorCode.PROTOCOL_ERROR, st0⟩
    else
      attach_and_push i.attach_ok i.push_ok i.end_stream st0

/-- Derived predicate: the request validation of `on_request_headers`
passes, i.e. control reaches the attach-and-push tail (lines 314-331). -/
def validation_passes (i : ReqHeadersInput) : Bool :=
  i.found && i.headers_ok &&
  (let is_connect := i.method == some "CONNECT"
   let having_host := non_empty_value i.host
   let having_authority := non_empty_value i.authority
   (if is_connect then
      !(i.scheme.isSome || i.path.isSome || !having_authority)
    else
      !(!non_empty_value i.method ||
        !non_empty_value i.scheme ||
        (i.http2_proxy && !having_authority) ||
        (!i.http2_proxy && !having_authority && !having_host) ||
        !non_empty_value i.path) &&
      (i.end_stream ||
       !(match i.content_length with
         | none => true
         | some v => value_lws v))))

/-- When validation passes, `on_request_headers` is exactly its
attach-and-push tail. -/
theorem on_request_headers_of_validation (i : ReqHeadersInput)
    (st0 : RequestState) (h : validation_passes i = true) :
    on_request_headers i st0 = attach_and_push i.attach_ok i.push_ok
      i.end_stream st0 := by
  unfold validation_passes at h
  unfold on_request_headers
  by_cases hc : (i.method == some "CONNECT") = true <;>
    simp [hc] at h ⊢
  · simp_all
  · by_cases hpx : i.http2_proxy = true <;>
      by_cases hau : non_empty_value i.authority = true <;>
      by_cases hho : non_empty_value i.host = true <;>
      by_cases hes : i.end_stream = true <;>
      simp_all

/-- C1: on the headers-complete event for a request-category HEADERS frame
whose validation passed: if attaching the origin connection fails, the
stream is reset with INTERNAL_ERROR and `request_state` becomes
CONNECT_FAIL; if attaching succeeds but pushing the request headers fails,
the stream is reset with INTERNAL_ERROR and the request state is left
unchanged (in particular not CONNECT_FAIL); if both succeed, the request
state becomes MSG_COMPLETE when the HEADERS frame carried END_STREAM and
HEADER_COMPLETE otherwise. -/
theorem c1_attach_push_outcomes (i : ReqHeadersInput) (st0 : RequestState)
    (h : validation_passes i = true) :
    (i.attach_ok = false →
      on_request_headers i st0 =
        ⟨some ErrorCode.INTERNAL_ERROR, RequestState.CONNECT_FAIL⟩) ∧
    (i.attach_ok = true → i.push_ok = false →
      on_request_headers i st0 = ⟨some ErrorCode.INTERNAL_ERROR, st0⟩) ∧
    (i.attach_ok = true → i.push_ok = true →
      on_request_headers i st0 =
        ⟨none, if i.end_stream then RequestState.MSG_COMPLETE
               else RequestState.HEADER_COMPLETE⟩) := by
  rw [on_request_headers_of_validation i st0 h]
  unfold attach_and_push
  refine ⟨fun ha => ?_, fun ha hp => ?_, fun ha hp => ?_⟩
  · simp [ha]
  · simp [ha, hp]
  · simp [ha, hp]
    split <;> rfl

/-- Concrete input for the C1 witness: a valid GET request with
END_STREAM, attach and push both succeeding. -/
def c1_input : ReqHeadersInput :=
  ⟨true, true, none, some "a.example", some "/x", some "GET", some "https",
   none, false, true, true, true⟩

/-- Witness for C1: evaluating the successful path at a concrete input. -/
theorem c1_attach_push_outcomes_witness :
    validation_passes c1_input = true ∧
    on_request_headers c1_input RequestState.INITIAL =
      ⟨none, RequestState.MSG_COMPLETE⟩ := by
  refine ⟨by decide, ?_⟩
  have h := (c1_attach_push_outcomes c1_input RequestState.INITIAL
    (by decide)).2.2 rfl rfl
  simpa using h

/-- C5: for a request-category HEADERS event (stream found, general header
checks passed) whose `:method` is CONNECT: if a `:scheme` is present, or a
`:path` is present, or the `:authority` is absent or empty, the stream is
reset with PROTOCOL_ERROR and the handler returns without advancing the
request state; otherwise the CONNECT-specific validation passes and
control reaches the attach-and-push tail. -/
theorem c5_connect_validation (i : ReqHeadersInput) (st0 : RequestState)
    (hf : i.found = true) (hh : i.headers_ok = true)
    (hm : i.method = some "CONNECT") :
    ((i.scheme.isSome = true ∨ i.path.isSome = true ∨
        non_empty_value i.authority = false) →
      on_request_headers i st0 = ⟨some ErrorCode.PROTOCOL_ERROR, st0⟩) ∧
    (i.scheme = none → i.path = none → non_empty_value i.authority = true →
      on_request_headers i st0 =
        attach_and_push i.attach_ok i.push_ok i.end_stream st0) := by
  unfold on_request_headers
  simp only [hf, hh, hm]
  constructor
  · intro hbad
    rcases hbad with hb | hb | hb <;> simp [hb]
  · intro hs hp ha
    simp [hs, hp, ha]

/-- Concrete input for the C5 witness: CONNECT request that also carries a
`:scheme` pseudo-header. -/
def c5_input : ReqHeadersInput :=
  ⟨true, true, none, some "a.example", none, some "CONNECT", some "https",
   none, false, false, true, true⟩

/-- Witness for C5: CONNECT with `:scheme` present is reset with
PROTOCOL_ERROR and the request state is not advanced. -/
theorem c5_connect_validation_witness :
    on_request_headers c5_input RequestState.INITIAL =
      ⟨some ErrorCode.PROTOCOL_ERROR, RequestState.INITIAL⟩ :=
  (c5_connect_validation c5_input RequestState.INITIAL rfl rfl rfl).1
    (Or.inl rfl)

/-- C6: for a request-category HEADERS event (stream found) whose method is
not CONNECT and whose HEADERS frame did not carry END_STREAM: if the
content-length header is absent or its value is LWS-only, the stream is
reset with PROTOCOL_ERROR and the handler returns without advancing the
request state. -/
theorem c6_content_length_required (i : ReqHeadersInput)
    (st0 : RequestState) (hf : i.found = true)
    (hm : (i.method == some "CONNECT") = false)
    (hes : i.end_stream = false)
    (hcl : i.content_length = none ∨
      ∃ v, i.content_length = some v ∧ value_lws v = true) :
    on_request_headers i st0 = ⟨some ErrorCode.PROTOCOL_ERROR, st0⟩ := by
  unfold on_request_headers
  by_cases hh : i.headers_ok = true
  · simp only [hf, hh, hm]
    rcases hcl with hcl | ⟨v, hv, hlws⟩ <;>
      by_cases hgen : (!non_empty_value i.method ||
        !non_empty_value i.scheme ||
        (i.http2_proxy && !non_empty_value i.authority) ||
        (!i.http2_proxy && !non_empty_value i.authority &&
          !non_empty_value i.host) ||
        !non_empty_value i.path) = true <;>
      simp_all
  · simp [hf, hh]

/-- Concrete input for the C6 witness: a POST without END_STREAM and
without content-length. -/
def c6_input : ReqHeadersInput :=
  ⟨true, true, some "h.example", none, some "/x", some "POST", some "https",
   none, false, false, true, true⟩

/-- Witness for C6: the concrete POST without content-length is reset with
PROTOCOL_ERROR and the request state is not advanced. -/
theorem c6_content_length_required_witness :
    on_request_headers c6_input RequestState.INITIAL =
      ⟨some ErrorCode.PROTOCOL_ERROR, RequestState.INITIAL⟩ :=
  c6_content_length_required c6_input RequestState.INITIAL rfl (by decide)
    rfl (Or.inl rfl)

/-- Observable outcome of `on_stream_close_callback` (lines 52-96):
whether the Stream was removed from the table, whether it was destroyed
(`delete downstream`), whether the origin connection was detached for
pooling, and the final request state recorded on the Stream before its
destruction. -/
structure StreamCloseResult where
  removed : Bool
  destroyed : Bool
  detached : Bool
  request_state : RequestState
  deriving DecidableEq, Repr

/-- `on_stream_close_callback` (lines 52-96). `found` is whether
`find_downstream` returned a stream; `rs` and `resp` are the stream's
request and response states on entry; `upgraded` is
`downstream->get_upgraded()`; `conn_close` is
`downstream->get_response_connection_close()`; `has_dconn` is whether
`downstream->get_downstream_connection()` is non-null. -/
def on_stream_close_callback (found : Bool) (rs : RequestState)
    (resp : ResponseState) (upgraded conn_close has_dconn : Bool) :
    StreamCloseResult :=
  if !found then
    ⟨false, false, false, rs⟩
  else if rs = RequestState.CONNECT_FAIL then
    ⟨true, true, false, rs⟩
  else
    if resp = ResponseState.MSG_COMPLETE then
      if !upgraded && !conn_close then
        ⟨true, true, has_dconn, RequestState.STREAM_CLOSED⟩
      else
        ⟨true, true, false, RequestState.STREAM_CLOSED⟩
    else
      ⟨true, true, false, RequestState.STREAM_CLOSED⟩

/-- C2: for every stream-close event whose stream-id has a Stream in the
table: a CONNECT_FAIL stream is removed and destroyed immediately;
otherwise the request state is set to STREAM_CLOSED, and — provided an
origin connection handle is attached — it is detached for pooling exactly
when `response_state = MSG_COMPLETE`, the stream was not upgraded and the
origin did not require connection-close; in every branch the Stream is
removed from the table and destroyed before the callback returns. -/
theorem c2_stream_close (rs : RequestState) (resp : ResponseState)
    (upgraded conn_close has_dconn : Bool) :
    (on_stream_close_callback true rs resp upgraded conn_close
        has_dconn).removed = true ∧
    (on_stream_close_callback true rs resp upgraded conn_close
        has_dconn).destroyed = true ∧
    (rs = RequestState.CONNECT_FAIL →
      on_stream_close_callback true rs resp upgraded conn_close has_dconn =
        ⟨true, true, false, rs⟩) ∧
    (rs ≠ RequestState.CONNECT_FAIL →
      (on_stream_close_callback true rs resp upgraded conn_close
          has_dconn).request_state = RequestState.STREAM_CLOSED ∧
      (has_dconn = true →
        ((on_stream_close_callback true rs resp upgraded conn_close
            has_dconn).detached = true ↔
          (resp = ResponseState.MSG_COMPLETE ∧ upgraded = false ∧
            conn_close = false)))) := by
  unfold on_stream_close_callback
  by_cases hcf : rs = RequestState.CONNECT_FAIL <;>
    cases resp <;> cases upgraded <;> cases conn_close <;>
    cases has_dconn <;> simp_all

/-- Witness for C2 at a concrete input: a completed, non-upgraded,
keep-alive stream with an attached origin connection is detached,
removed and destroyed, with its request state set to STREAM_CLOSED. -/
theorem c2_stream_close_witness :
    (on_stream_close_callback true RequestState.MSG_COMPLETE
      ResponseState.MSG_COMPLETE false false true).removed = true ∧
    (on_stream_close_callback true RequestState.MSG_COMPLETE
      ResponseState.MSG_COMPLETE false false true).destroyed = true ∧
    (on_stream_close_callback true RequestState.MSG_COMPLETE
      ResponseState.MSG_COMPLETE false false true).detached = true ∧
    (on_stream_close_callback true RequestState.MSG_COMPLETE
      ResponseState.MSG_COMPLETE false false true).request_state =
      RequestState.STREAM_CLOSED := by
  have h := c2_stream_close RequestState.MSG_COMPLETE
    ResponseState.MSG_COMPLETE false false true
  have hd := ((h.2.2.2 (by decide)).2 rfl).mpr ⟨rfl, rfl, rfl⟩
  have hs := (h.2.2.2 (by decide)).1
  exact ⟨h.1, h.2.1, hd, hs⟩

/-- Return value of the per-stream response data-source callback:
`bytes n` models returning `nread = n`, `deferred` models
`NGHTTP2_ERR_DEFERRED`, `fail` models
`NGHTTP2_ERR_CALLBACK_FAILURE`. -/
inductive DataReadRet where
  | bytes (n : Nat)
  | deferred
  | fail
  deriving DecidableEq, Repr

/-- Inputs to `downstream_data_read_callback` (lines 847-893): `bodylen`
is the number of bytes in the stream's response body buffer; `length` is
the codec's maximum read size; `resp` is the stream's response state;
`upgraded` is `downstream->get_upgraded()`; `rst_code` is
`downstream->get_response_rst_stream_error_code()`; `outbuf_len` is
`handler->get_outbuf_length()`; `remove_ok` and `resume_ok` are whether
`evbuffer_remove` and `downstream->resume_read` succeeded. -/
structure DataReadInput where
  bodylen : Nat
  length : Nat
  resp : ResponseState
  upgraded : Bool
  rst_code : ErrorCode
  outbuf_len : Nat
  remove_ok : Bool
  resume_ok : Bool
  deriving Repr

/-- Observable outcome of `downstream_data_read_callback`: the `*eof`
flag, the RST_STREAM submission (if any), whether `resume_read` was
invoked, the bytes left in the response buffer, and the return value. -/
structure DataReadResult where
  eof : Bool
  rst : Option ErrorCode
  resumed : Bool
  bodylen_after : Nat
  ret : DataReadRet
  deriving DecidableEq, Repr

/-- `downstream_data_read_callback` (lines 847-893): remove up to `length`
bytes from the response buffer; if the read returned zero bytes and the
response is complete, set `*eof` for a non-upgraded stream, and for an
upgraded (tunneled) stream submit RST_STREAM with the code from
`infer_upstream_rst_stream_error_code`; resume origin reads when `*eof`
is unset and the buffered output is below `OUTBUF_MAX_THRES`; return
DEFERRED when zero bytes were read and `*eof` is unset. -/
def downstream_data_read_callback (i : DataReadInput) : DataReadResult :=
  if !i.remove_ok then
    ⟨false, none, false, i.bodylen, DataReadRet.fail⟩
  else
    let nread := min i.bodylen i.length
    let body_after := i.bodylen - nread
    let eof : Bool :=
      decide (nread = 0) &&
      decide (i.resp = ResponseState.MSG_COMPLETE) && !i.upgraded
    let rst : Option ErrorCode :=
      if decide (nread = 0) &&
         decide (i.resp = ResponseState.MSG_COMPLETE) && i.upgraded then
        some (infer_upstream_rst_stream_error_code i.rst_code)
      else
        none
    let resume_wanted : Bool :=
      !eof && decide (i.outbuf_len + body_after < OUTBUF_MAX_THRES)
    if resume_wanted && !i.resume_ok then
      ⟨eof, rst, true, body_after, DataReadRet.fail⟩
    else if decide (nread = 0) && !eof then
      ⟨eof, rst, resume_wanted, body_after, DataReadRet.deferred⟩
    else
      ⟨eof, rst, resume_wanted, body_after, DataReadRet.bytes nread⟩

/-- Counterexample to C4 as stated: a read that drains the last byte of
the response buffer (buffer empty afterwards) on a non-upgraded stream
with `response_state = MSG_COMPLETE` does NOT set the end-of-stream flag
on that call — the code only sets `*eof` when the read returns zero
bytes, i.e. when the buffer was already empty. -/
theorem c4_counterexample :
    (downstream_data_read_callback
      ⟨1, 16, ResponseState.MSG_COMPLETE, false, ErrorCode.NO_ERROR, 0,
        true, true⟩).bodylen_after = 0 ∧
    (downstream_data_read_callback
      ⟨1, 16, ResponseState.MSG_COMPLETE, false, ErrorCode.NO_ERROR, 0,
        true, true⟩).eof = false ∧
    (downstream_data_read_callback
      ⟨1, 16, ResponseState.MSG_COMPLETE, false, ErrorCode.NO_ERROR, 0,
        true, true⟩).ret = DataReadRet.bytes 1 := by
  decide

/-- C4 (amended): whenever the read returns zero bytes because the
response buffer is already empty and `response_state = MSG_COMPLETE`, a
non-upgraded stream has the end-of-stream flag set, while an upgraded
(tunneled) stream never has end-of-stream set and instead a RST_STREAM is
submitted with the code from `infer_upstream_rst_stream_error_code`;
whenever the buffer is empty and the response is not complete, the
callback (with its buffer operations succeeding) returns DEFERRED. -/
theorem c4_data_read (i : DataReadInput) (hrm : i.remove_ok = true)
    (hrs : i.resume_ok = true) :
    (i.bodylen = 0 → i.resp = ResponseState.MSG_COMPLETE →
      (i.upgraded = false →
        (downstream_data_read_callback i).eof = true) ∧
      (i.upgraded = true →
        (downstream_data_read_callback i).rst =
          some (infer_upstream_rst_stream_error_code i.rst_code))) ∧
    (i.upgraded = true → (downstream_data_read_callback i).eof = false) ∧
    (i.bodylen = 0 → i.resp ≠ ResponseState.MSG_COMPLETE →
      (downstream_data_read_callback i).ret = DataReadRet.deferred) := by
  refine ⟨fun hb hresp => ⟨fun hu => ?_, fun hu => ?_⟩, fun hu => ?_,
    fun hb hresp => ?_⟩
  · simp [downstream_data_read_callback, hrm, hrs, hb, hresp, hu,
      Nat.zero_min]
  · simp [downstream_data_read_callback, hrm, hrs, hb, hresp, hu,
      Nat.zero_min]
  · simp [downstream_data_read_callback, hrm, hrs, hu, Nat.zero_min]
    split <;> rfl
  · simp [downstream_data_read_callback, hrm, hrs, hb, hresp, Nat.zero_min]

/-- Witness for C4 (amended): reading from an already-empty buffer of a
completed non-upgraded stream sets end-of-stream. -/
theorem c4_data_read_witness :
    (downstream_data_read_callback
      ⟨0, 16, ResponseState.MSG_COMPLETE, false, ErrorCode.NO_ERROR, 0,
        true, true⟩).eof = true :=
  ((c4_data_read
    ⟨0, 16, ResponseState.MSG_COMPLETE, false, ErrorCode.NO_ERROR, 0,
      true, true⟩ rfl rfl).1 rfl rfl).1 rfl

/-- Inputs to `downstream_readcb` (lines 615-669): the stream's request
and response states on entry, the origin-reported RST error code
(`downstream->get_response_rst_stream_error_code()`), and oracles for the
results of `downstream->on_read()`, `upstream->error_reply(...)` and
`upstream->send()`. -/
structure ReadcbInput where
  request_state : RequestState
  response_state : ResponseState
  rst_code : ErrorCode
  on_read_ok : Bool
  error_reply_ok : Bool
  send_ok : Bool
  deriving Repr

/-- Observable outcome of `downstream_readcb`: stream-table removal and
stream destruction, RST_STREAM submission, origin-connection deletion,
synthesized error-reply status, final response state, whether `send()`
was run before returning, and client-handler teardown. -/
structure ReadcbResult where
  removed : Bool
  destroyed : Bool
  rst : Option ErrorCode
  dconn_deleted : Bool
  replied_status : Option Nat
  response_state : ResponseState
  send_called : Bool
  handler_deleted : Bool
  deriving DecidableEq, Repr

/-- The common tail of `downstream_readcb`: run `upstream->send()`,
deleting the client handler if it fails. -/
def readcb_finish (r : ReadcbResult) (send_ok : Bool) : ReadcbResult :=
  { r with send_called := true, handler_deleted := !send_ok }

/-- `downstream_readcb` (lines 615-669): if the client stream is already
closed, remove and destroy the Stream and return (no `send()`); if the
origin reported cancellation, submit RST_STREAM with
`infer_upstream_rst_stream_error_code` and delete the origin connection;
otherwise run the origin HTTP reader: on failure, RST_STREAM
(INTERNAL_ERROR) when response headers were already delivered, a
synthesized 502 when the response was not yet complete (tearing the
client down and returning early if that fails), then mark the response
complete and delete the origin connection. Every path other than the two
early returns ends in `send()`. -/
def downstream_readcb (i : ReadcbInput) : ReadcbResult :=
  if i.request_state = RequestState.STREAM_CLOSED then
    ⟨true, true, none, false, none, i.response_state, false, false⟩
  else if i.response_state = ResponseState.MSG_RESET then
    readcb_finish
      ⟨false, false, some (infer_upstream_rst_stream_error_code i.rst_code),
        true, none, i.response_state, false, false⟩ i.send_ok
  else if i.on_read_ok then
    readcb_finish
      ⟨false, false, none, false, none, i.response_state, false, false⟩
      i.send_ok
  else if i.response_state = ResponseState.HEADER_COMPLETE then
    readcb_finish
      ⟨false, false, some ErrorCode.INTERNAL_ERROR, true, none,
        ResponseState.MSG_COMPLETE, false, false⟩ i.send_ok
  else if i.response_state ≠ ResponseState.MSG_COMPLETE then
    if !i.error_reply_ok then
      ⟨false, false, none, false, none, i.response_state, false, true⟩
    else
      readcb_finish
        ⟨false, false, none, true, some 502, ResponseState.MSG_COMPLETE,
          false, false⟩ i.send_ok
  else
    readcb_finish
      ⟨false, false, none, true, none, ResponseState.MSG_COMPLETE, false,
        false⟩ i.send_ok

/-- Counterexample to C8 as stated: when the client stream is already
closed (`request_state = STREAM_CLOSED`) the read callback removes and
destroys the Stream and returns early WITHOUT running `send()`. -/
theorem c8_counterexample :
    (downstream_readcb
      ⟨RequestState.STREAM_CLOSED, ResponseState.INITIAL,
        ErrorCode.NO_ERROR, true, true, true⟩).send_called = false ∧
    (downstream_readcb
      ⟨RequestState.STREAM_CLOSED, ResponseState.INITIAL,
        ErrorCode.NO_ERROR, true, true, true⟩).removed = true ∧
    (downstream_readcb
      ⟨RequestState.STREAM_CLOSED, ResponseState.INITIAL,
        ErrorCode.NO_ERROR, true, true, true⟩).destroyed = true := by
  decide

/-- C8 (amended): the origin read callback finishes by running `send()`
in every branch except the `request_state = STREAM_CLOSED` early return
(which removes and destroys the Stream without sending) and the teardown
when a needed synthesized error reply fails; in particular `send()` runs
in the cancellation (MSG_RESET) branch, the reader-success branch, and
every reader-failure branch whose error reply (if one is needed)
succeeds. -/
theorem c8_readcb_send (i : ReadcbInput) :
    (i.request_state = RequestState.STREAM_CLOSED →
      (downstream_readcb i).send_called = false ∧
      (downstream_readcb i).removed = true ∧
      (downstream_readcb i).destroyed = true) ∧
    (i.request_state ≠ RequestState.STREAM_CLOSED →
      i.error_reply_ok = true →
      (downstream_readcb i).send_called = true) := by
  constructor
  · intro hc
    simp [downstream_readcb, hc]
  · intro hc he
    unfold downstream_readcb readcb_finish
    simp only [hc, he]
    split
    · simp_all
    · split
      · rfl
      · split
        · rfl
        · split
          · rfl
          · split
            · simp
            · rfl

/-- Witness for C8 (amended): in the cancellation branch at a concrete
input, `send()` is run before returning. -/
theorem c8_readcb_send_witness :
    (downstream_readcb
      ⟨RequestState.HEADER_COMPLETE, ResponseState.MSG_RESET,
        ErrorCode.REFUSED_STREAM, true, true, true⟩).send_called = true :=
  (c8_readcb_send
    ⟨RequestState.HEADER_COMPLETE, ResponseState.MSG_RESET,
      ErrorCode.REFUSED_STREAM, true, true, true⟩).2 (by decide) rfl

/-- `Http2Upstream::start_settings_timer` (lines 147-166) over the timer
state: `some d` models a non-null `settings_timerev_` whose timeout is `d`
seconds, `none` models the null pointer. `new_ok` and `add_ok` are whether
`evtimer_new` and `evtimer_add` succeeded. Returns the new timer state and
the `int` result. -/
def start_settings_timer (timer : Option Nat) (new_ok add_ok : Bool) :
    Option Nat × Int :=
  match timer with
  | some d => (some d, 0)
  | none =>
    if !new_ok then
      (none, -1)
    else if !add_ok then
      (some 10, -1)
    else
      (some 10, 0)

/-- `Http2Upstream::stop_settings_timer` (lines 168-175): free the timer if
present; the pointer is null afterwards in either case. -/
def stop_settings_timer (timer : Option Nat) : Option Nat :=
  match timer with
  | none => none
  | some _ => none

/-- The `NGHTTP2_SETTINGS` arm of `on_frame_recv_callback` (lines
371-376): a SETTINGS frame without the ACK flag leaves the timer alone; a
SETTINGS frame with ACK stops the timer. -/
def on_frame_recv_settings (ack : Bool) (timer : Option Nat) :
    Option Nat :=
  if !ack then
    timer
  else
    stop_settings_timer timer

/-- `on_frame_send_callback` (lines 410-426) restricted to the timer
state: a sent non-ACK SETTINGS frame starts the settings timer; a nonzero
result becomes a callback failure (second component). -/
def on_frame_send_callback (is_settings ack : Bool) (timer : Option Nat)
    (new_ok add_ok : Bool) : Option Nat × Bool :=
  if is_settings && !ack then
    let r := start_settings_timer timer new_ok add_ok
    (r.1, r.2 ≠ 0)
  else
    (timer, false)

/-- Fold a sequence of `start_settings_timer` calls (one per sent non-ACK
SETTINGS frame), collecting each call's result. -/
def run_settings_starts :
    Option Nat → List (Bool × Bool) → Option Nat × List Int
  | timer, [] => (timer, [])
  | timer, p :: rest =>
    let r := start_settings_timer timer p.1 p.2
    let w := run_settings_starts r.1 rest
    (w.1, r.2 :: w.2)

/-- C9: starting the SETTINGS-ACK timer is idempotent: the first start
(with live-timer allocation succeeding) arms a 10-second timer and
returns success; any sequence of later starts leaves the armed timer
unchanged, each returning success; receiving a SETTINGS frame with the
ACK flag stops and clears the timer. -/
theorem c9_settings_timer_idempotent :
    start_settings_timer none true true = (some 10, 0) ∧
    (∀ d new_ok add_ok,
      start_settings_timer (some d) new_ok add_ok = (some d, 0)) ∧
    (∀ d l, run_settings_starts (some d) l =
      (some d, l.map fun _ => (0 : Int))) ∧
    (∀ timer, on_frame_recv_settings true timer = none) := by
  refine ⟨rfl, fun d new_ok add_ok => rfl, fun d l => ?_, fun timer => ?_⟩
  · induction l with
    | nil => rfl
    | cons p rest ih =>
      simp [run_settings_starts, start_settings_timer, ih]
  · cases timer <;> rfl

/-- Witness for C9 at concrete inputs: two further start calls after the
timer is armed leave it at 10 seconds and both return success, and an ACK
clears it. -/
theorem c9_settings_timer_idempotent_witness :
    run_settings_starts (some 10) [(true, true), (false, true)] =
      (some 10, [0, 0]) ∧
    on_frame_recv_settings true (some 10) = none := by
  have h := c9_settings_timer_idempotent
  refine ⟨?_, h.2.2.2 (some 10)⟩
  have h2 := h.2.2.1 10 [(true, true), (false, true)]
  simpa using h2

/-- Modelled from the spec: `Downstream::MAX_HEADERS_SUM` (declared in
`shrpx_downstream.h`, outside this tree); the spec treats it as
implementation-defined with a safe default of 64 KiB. -/
def MAX_HEADERS_SUM : Nat := 64 * 1024

/-- One invocation of the header callback for one name/value pair:
`is_request_headers` is `frame->hd.type = HEADERS` and
`frame->headers.cat = HCAT_REQUEST`; `found` is whether `find_downstream`
located the Stream; `check_nv` is the result of `http2::check_nv`. -/
structure HeaderEvent where
  is_request_headers : Bool
  found : Bool
  name : String
  value : String
  check_nv : Bool
  deriving Repr

/-- Per-stream header-accumulation state: the running raw-header byte
count (`get_request_headers_sum`) and the appended request headers. -/
structure HeaderCbState where
  sum : Nat
  headers : List (String × String)
  deriving DecidableEq, Repr

/-- Result of the header callback: 0 or
`NGHTTP2_ERR_TEMPORAL_CALLBACK_FAILURE`. -/
inductive HeaderCbRet where
  | ok
  | temporal_failure
  deriving DecidableEq, Repr

/-- Modelled from the spec: `Downstream::split_add_request_header`
(implemented in `shrpx_downstream.cc`, outside this tree) appends the
name/value pair to the request-header list and adds the pair's raw size
to the running byte count (spec: the running raw-header size equals the
sum of name+value lengths of appended request headers). The NUL-splitting
of concatenated values does not affect either observable. -/
def split_add_request_header (st : HeaderCbState) (name value : String) :
    HeaderCbState :=
  ⟨st.sum + name.length + value.length, st.headers ++ [(name, value)]⟩

/-- `on_header_callback` (lines 177-210): ignore non-request-HEADERS
frames and unknown streams; fail temporally when the running raw-header
size exceeds `MAX_HEADERS_SUM`; ignore pairs rejected by
`http2::check_nv`; otherwise append via `split_add_request_header`. -/
def on_header_callback (st : HeaderCbState) (e : HeaderEvent) :
    HeaderCbState × HeaderCbRet :=
  if !e.is_request_headers then
    (st, HeaderCbRet.ok)
  else if !e.found then
    (st, HeaderCbRet.ok)
  else if st.sum > MAX_HEADERS_SUM then
    (st, HeaderCbRet.temporal_failure)
  else if !e.check_nv then
    (st, HeaderCbRet.ok)
  else
    (split_add_request_header st e.name e.value, HeaderCbRet.ok)

/-- Run the header callback over a sequence of header events for one
stream; a temporal callback failure resets the stream, so no further
header events are delivered to it. -/
def run_header_callbacks : HeaderCbState → List HeaderEvent → HeaderCbState
  | st, [] => st
  | st, e :: rest =>
    let r := on_header_callback st e
    if r.2 = HeaderCbRet.ok then
      run_header_callbacks r.1 rest
    else
      r.1

/-- A single long header value used by the C7 counterexample. -/
def c7_big_value : String :=
  String.mk (List.replicate (MAX_HEADERS_SUM + 1) 'a')

/-- Counterexample to C7 as stated: the size check runs BEFORE the append
and only rejects once the running size already exceeds
`MAX_HEADERS_SUM`, so a reachable state has the accumulated raw request
header size strictly above `MAX_HEADERS_SUM`: a single accepted header of
raw size `MAX_HEADERS_SUM + 2` is appended (the prior sum, 0, does not
exceed the cap) and leaves the running sum above the cap. -/
theorem c7_counterexample :
    (run_header_callbacks ⟨0, []⟩
      [⟨true, true, "x", c7_big_value, true⟩]).sum > MAX_HEADERS_SUM := by
  have hmk : ∀ l : List Char, (String.mk l).length = l.length :=
    fun l => rfl
  have hlen : c7_big_value.length = MAX_HEADERS_SUM + 1 := by
    unfold c7_big_value
    rw [hmk, List.length_replicate]
  have e1 : on_header_callback ⟨0, []⟩
      ⟨true, true, "x", c7_big_value, true⟩ =
      (split_add_request_header ⟨0, []⟩ "x" c7_big_value,
        HeaderCbRet.ok) := by
    unfold on_header_callback
    norm_num [MAX_HEADERS_SUM]
  have e2 : run_header_callbacks ⟨0, []⟩
      [⟨true, true, "x", c7_big_value, true⟩] =
      split_add_request_header ⟨0, []⟩ "x" c7_big_value := by
    unfold run_header_callbacks
    rw [e1]
    rfl
  have h_add : ∀ (st : HeaderCbState) (n v : String),
      (split_add_request_header st n v).sum =
        st.sum + n.length + v.length := fun _ _ _ => rfl
  have hsum : (run_header_callbacks ⟨0, []⟩
      [⟨true, true, "x", c7_big_value, true⟩]).sum =
      (⟨0, []⟩ : HeaderCbState).sum + "x".length + c7_big_value.length := by
    rw [e2, h_add]
  have hzero : (⟨0, []⟩ : HeaderCbState).sum = 0 := rfl
  have hx : "x".length = 1 := rfl
  rw [hsum, hzero, hx, hlen]
  omega

/-- Bound actually maintained: starting from an empty header block, the
running raw-header size never exceeds `MAX_HEADERS_SUM` plus one header's
raw size (any bound `L` on the individual events' raw sizes). -/
theorem run_header_callbacks_sum_le (L : Nat) (es : List HeaderEvent)
    (st : HeaderCbState) (hst : st.sum ≤ MAX_HEADERS_SUM + L)
    (hall : ∀ e ∈ es, e.name.length + e.value.length ≤ L) :
    (run_header_callbacks st es).sum ≤ MAX_HEADERS_SUM + L := by
  induction es generalizing st with
  | nil => simpa [run_header_callbacks] using hst
  | cons e rest ih =>
    have hsz : e.name.length + e.value.length ≤ L :=
      hall e (List.mem_cons_self e rest)
    have hrest : ∀ e' ∈ rest, e'.name.length + e'.value.length ≤ L :=
      fun e' he' => hall e' (List.mem_cons_of_mem e he')
    simp only [run_header_callbacks]
    by_cases h1 : e.is_request_headers = true
    · by_cases h2 : e.found = true
      · by_cases h3 : st.sum > MAX_HEADERS_SUM
        · simpa [on_header_callback, h1, h2, h3] using hst
        · by_cases h4 : e.check_nv = true
          · simp only [on_header_callback, h1, h2, h3, h4]
            simp only [Bool.not_true, Bool.false_eq_true, if_false,
              if_neg h3]
            apply ih
            · simp only [split_add_request_header]
              omega
            · exact hrest
          · simp only [on_header_callback, h1, h2, h3, h4]
            simp_all
      · simp [on_header_callback, h1, h2]
        exact ih st hst hrest
    · simp [on_header_callback, h1]
      exact ih st hst hrest

/-- C7 (amended): the header callback signals a temporal callback failure
when a Stream's running raw-header size exceeds `MAX_HEADERS_SUM`, and
otherwise appends the validated header; consequently a header is only
ever appended when the running size before the append is at most
`MAX_HEADERS_SUM`, and over any event sequence whose individual raw
header sizes are bounded by `L`, the accumulated size stays at most
`MAX_HEADERS_SUM + L` (the cap can be overshot by at most one header's
raw size, not maintained outright). -/
theorem c7_header_sum (L : Nat) (es : List HeaderEvent)
    (hall : ∀ e ∈ es, e.name.length + e.value.length ≤ L) :
    (run_header_callbacks ⟨0, []⟩ es).sum ≤ MAX_HEADERS_SUM + L ∧
    (∀ st e, st.sum > MAX_HEADERS_SUM → e.is_request_headers = true →
      e.found = true →
      on_header_callback st e = (st, HeaderCbRet.temporal_failure)) ∧
    (∀ st e, st.sum ≤ MAX_HEADERS_SUM → e.is_request_headers = true →
      e.found = true → e.check_nv = true →
      on_header_callback st e =
        (split_add_request_header st e.name e.value, HeaderCbRet.ok)) := by
  refine ⟨run_header_callbacks_sum_le L es ⟨0, []⟩ (by simp) hall,
    fun st e h3 h1 h2 => ?_, fun st e h3 h1 h2 h4 => ?_⟩
  · simp [on_header_callback, h1, h2, h3]
  · simp [on_header_callback, h1, h2, h4, Nat.not_lt.mpr h3]

/-- Witness for C7 (amended) at a concrete input: two small headers are
accumulated and the bound holds. -/
theorem c7_header_sum_witness :
    (run_header_callbacks ⟨0, []⟩
      [⟨true, true, "a", "bb", true⟩, ⟨true, true, "cc", "d", true⟩]).sum ≤
      MAX_HEADERS_SUM + 3 :=
  (c7_header_sum 3
    [⟨true, true, "a", "bb", true⟩, ⟨true, true, "cc", "d", true⟩]
    (by decide)).1

/-- Observable outcome of `Http2Upstream::error_reply`: the final contents
of the stream's response body buffer, the final response state, the header
list handed to `nghttp2_submit_response` (if reached), whether the
`rv < NGHTTP2_ERR_FATAL` DIE() path was taken, and the return value. -/
structure ErrorReplyResult where
  body : String
  response_state : ResponseState
  submitted : Option (List (String × String))
  died : Bool
  ret : Int
  deriving Repr

/-- `Http2Upstream::error_reply` (lines 895-934). `create_error_html`
abstracts `http::create_error_html` (implemented in `shrpx_http.cc`,
outside this tree): the generated HTML error page for the status code;
`server_name` is `get_config()->server_name`; `buf0` is whatever the
response body buffer held before the call; `add_ok` is whether
`evbuffer_add` succeeded; `st0` is the response state on entry;
`submit_fatal` is whether `nghttp2_submit_response` returned a fatal
error (the DIE() path). `util::utos` is modelled as decimal `toString`;
string length models byte length. The body buffer is re-initialized
(`init_response_body_buf`) before the HTML is appended, discarding
`buf0`. -/
def error_reply (create_error_html : Nat → String) (server_name : String)
    (status_code : Nat) (buf0 : String) (add_ok : Bool)
    (st0 : ResponseState) (submit_fatal : Bool) : ErrorReplyResult :=
  let html := create_error_html status_code
  let buf1 := ""
  if !add_ok then
    ⟨buf1, st0, none, false, -1⟩
  else
    let content_length := toString html.length
    let status_code_str := toString status_code
    let nva := [(":status", status_code_str),
                ("content-type", "text/html; charset=UTF-8"),
                ("server", server_name),
                ("content-length", content_length)]
    ⟨buf1 ++ html, ResponseState.MSG_COMPLETE, some nva, submit_fatal, 0⟩

/-- C10: for every call to `error_reply`, the response body buffer is
re-initialized before the generated HTML page is appended (any previously
buffered bytes `buf0` are discarded); on successful return the buffer
contains exactly the generated HTML, `response_state = MSG_COMPLETE`, the
return value is 0, and the submitted header list is exactly
`[:status, content-type, server, content-length]` with content-length
equal to the length of the HTML body. -/
theorem c10_error_reply (f : Nat → String) (sname : String) (status : Nat)
    (buf0 : String) (st0 : ResponseState) (add_ok submit_fatal : Bool)
    (hadd : add_ok = true) (hfat : submit_fatal = false) :
    error_reply f sname status buf0 add_ok st0 submit_fatal =
      ⟨f status, ResponseState.MSG_COMPLETE,
        some [(":status", toString status),
              ("content-type", "text/html; charset=UTF-8"),
              ("server", sname),
              ("content-length", toString (f status).length)],
        false, 0⟩ := by
  simp [error_reply, hadd, hfat]

/-- Witness for C10: a concrete 502 error reply over a stub HTML
generator, with a non-empty stale buffer discarded. -/
theorem c10_error_reply_witness :
    error_reply (fun _ => "oops") "sx" 502 "stale" true
      ResponseState.INITIAL false =
      ⟨"oops", ResponseState.MSG_COMPLETE,
        some [(":status", toString 502),
              ("content-type", "text/html; charset=UTF-8"),
              ("server", "sx"),
              ("content-length", toString ("oops".length))],
        false, 0⟩ :=
  c10_error_reply (fun _ => "oops") "sx" 502 "stale"
    ResponseState.INITIAL true false rfl rfl

/-- C3: for every origin error code, `infer_upstream_rst_stream_error_code`
returns `REFUSED_STREAM` iff the input is `REFUSED_STREAM`, and returns
`INTERNAL_ERROR` for every other input. -/
theorem c3_infer_rst_error_code (c : ErrorCode) :
    (infer_upstream_rst_stream_error_code c = ErrorCode.REFUSED_STREAM ↔
      c = ErrorCode.REFUSED_STREAM) ∧
    (c ≠ ErrorCode.REFUSED_STREAM →
      infer_upstream_rst_stream_error_code c = ErrorCode.INTERNAL_ERROR) := by
  cases c <;> simp [infer_upstream_rst_stream_error_code]

/-- Witness for C3 at concrete inputs: `REFUSED_STREAM` passes through and
`CANCEL` maps to `INTERNAL_ERROR`. -/
theorem c3_infer_rst_error_code_witness :
    infer_upstream_rst_stream_error_code ErrorCode.REFUSED_STREAM =
      ErrorCode.REFUSED_STREAM ∧
    infer_upstream_rst_stream_error_code ErrorCode.CANCEL =
      ErrorCode.INTERNAL_ERROR := by
  refine ⟨(c3_infer_rst_error_code ErrorCode.REFUSED_STREAM).1.mpr rfl, ?_⟩
  exact (c3_infer_rst_error_code ErrorCode.CANCEL).2 (by decide)

end Shrpx
